import Mathlib

/-!
Shallow embedding of the chs-xmit show runtime (src/src/showstate.rs,
src/src/packet.rs, src/src/clip.rs, src/src/show.rs, src/src/config.rs).

Conventions of the embedding:
* Machine integers (`u8`, `u32`, `usize`, `u64`) are modelled as `Nat`;
  wrapping or saturating casts are written explicitly (`% 256`, `min`).
* `f32` fields that are only stored and compared (tempo, beats,
  twinkle_factor) are modelled as exact rationals (`Rat`); no claim in
  this development depends on float rounding.
* `Instant` and `Duration` are both modelled as `Nat` (a monotone clock);
  `Instant::now()` is passed in explicitly as a `now` argument, and the
  several `Instant::now()` calls within one runtime entry point are
  modelled as returning the same instant.
* The radio is modelled as a pure trace: `Radio::send` appends the packet
  to an emitted-packet list and never fails.
* Rust panics (`unwrap` on a missing `HashMap` entry, out-of-bounds
  indexing, exhausted loop fuel for the clip interpreter's `while` loop)
  are modelled as `Option.none`.  `anyhow` errors cannot arise in the
  model because the modelled radio is infallible, so `let _ = ...`
  result-discards only ever discard `Ok`.
* `Rc<RefCell<ReceiverState>>` cells shared between mapping metas are
  modelled by keeping the cells in a single list (`receiver_state`) and
  having each `LightMappingMeta` store the ids of the cells it
  references; reads go through `cellOf` and writes map over the list.
  The resolver only ever hands out references to existing cells, so the
  `cellOf` fallback value is never exercised in reachable states.
* `HashMap`/`HashSet` iteration order is unspecified in Rust; the model
  fixes a list order.  No claim proved here depends on that order.
* `RefCell` double-borrow panics (a clip stopping or starting itself
  reentrantly) are not modelled; no claim touches those corner cases.
-/

namespace ChsXmit

/-! ## show.rs: colors, effects, mappings, clip steps -/

structure Color where
  h : Nat
  s : Nat
  v : Nat
deriving Repr, DecidableEq

/-- src/src/packet.rs `EffectId` (repr(u8) discriminants via `toNat`). -/
inductive EffectId
  | Off | Pop | Firecrackers | Chase | Strobe | BidiChase | OneShotChase
  | BidiOneShotChase | Sparkle | Wave | PiezoTrigger | Flame | Flame2
  | Grass | CircularChase | BatteryTest | Rainbow | Twinkle | DigitalPin
  | PinAndSpin | PopAndSpin
deriving Repr, DecidableEq

def EffectId.toNat : EffectId → Nat
  | .Off => 0 | .Pop => 1 | .Firecrackers => 2 | .Chase => 3 | .Strobe => 4
  | .BidiChase => 5 | .OneShotChase => 6 | .BidiOneShotChase => 7
  | .Sparkle => 8 | .Wave => 9 | .PiezoTrigger => 10 | .Flame => 11
  | .Flame2 => 12 | .Grass => 13 | .CircularChase => 14 | .BatteryTest => 15
  | .Rainbow => 16 | .Twinkle => 17 | .DigitalPin => 18 | .PinAndSpin => 19
  | .PopAndSpin => 20

/-- The `Effect` enum.  The repository holds two diverging drafts of the
variant list (src/src/show.rs has `QueueMovement`/`Move`/`SetHome`,
src/src/packet.rs codecs the list below); we follow the variant set that
src/src/packet.rs matches exhaustively, since the packet codec is the
part the claims exercise.  No claim names a particular variant. -/
inductive Effect
  | Pop
  | Firecrackers (delay_quantization delay_multiplier : Nat)
  | Chase (chase_length : Nat) (reverse : Bool)
  | Strobe (division : Nat)
  | BidiChase (chase_length : Nat)
  | OneShotChase (chase_length : Nat) (reverse : Bool) (beat_denominator : Nat)
  | BidiOneShotChase (chase_length : Nat)
  | Sparkle (stride tempo_division : Nat)
  | Wave (alternate_hue alternate_brightness colorspace_phase colorspace_range : Nat)
  | PiezoTrigger (flash_decay threshold : Nat)
  | Flame (min_flicker max_flicker : Nat)
  | Flame2 (min_flicker max_flicker : Nat)
  | Grass (base_height blade_top : Nat)
  | CircularChase (chase_length : Nat) (reverse : Bool)
  | BatteryTest
  | Rainbow (secondary_hue : Nat)
  | Twinkle (twinkle_brightness : Nat) (twinkle_factor : Rat)
  | DigitalPin (pin : Nat)
  | PinAndSpin (pin rpm : Nat)
  | PopAndSpin (rpm : Nat)
deriving Repr, DecidableEq

def Effect.to_effect_id : Effect → EffectId
  | .Pop => .Pop
  | .Firecrackers .. => .Firecrackers
  | .Chase .. => .Chase
  | .Strobe .. => .Strobe
  | .BidiChase .. => .BidiChase
  | .OneShotChase .. => .OneShotChase
  | .BidiOneShotChase .. => .BidiOneShotChase
  | .Sparkle .. => .Sparkle
  | .Wave .. => .Wave
  | .PiezoTrigger .. => .PiezoTrigger
  | .Flame .. => .Flame
  | .Flame2 .. => .Flame2
  | .Grass .. => .Grass
  | .CircularChase .. => .CircularChase
  | .BatteryTest => .BatteryTest
  | .Rainbow .. => .Rainbow
  | .Twinkle .. => .Twinkle
  | .DigitalPin .. => .DigitalPin
  | .PinAndSpin .. => .PinAndSpin
  | .PopAndSpin .. => .PopAndSpin

/-- Either `Effect(variant)` or `Clip(name)` (src/src/show.rs `LightMappingType`). -/
inductive LightMappingType
  | Effect (e : ChsXmit.Effect)
  | Clip (name : String)
deriving Repr, DecidableEq

/-- src/src/show.rs `LightMapping`, restricted to the fields the runtime
reads.  `id` models `LightMapping::get_id` (the address of the record in
Rust; spec section 9 sanctions a stable id as the portable replacement).
The `color`/`midi`/`targets` source fields are resolved away into
`LightMappingMeta` by `create_light_mapping_meta` and are not needed. -/
structure LightMapping where
  id : Nat
  cue : String
  light : LightMappingType
  override_clip_color : Option Bool
  attack : Option Nat
  sustain : Option Nat
  release : Option Nat
  one_shot : Option Bool
  tempo : Option Rat
deriving Repr, DecidableEq

def LightMapping.get_id (m : LightMapping) : Nat := m.id

/-- src/src/show.rs `ClipStep`. -/
inductive ClipStep
  | MappingOn (m : LightMapping)
  | MappingOff (i : Nat)
  | WaitBeats (b : Rat)
  | WaitMillis (ms : Nat)
  | Loop (i : Nat)
  | SetColor (c : Color)
  | SetTempo (t : Rat)
  | Stop
  | StopOther (name : String)
  | End
deriving Repr, DecidableEq

/-! ## packet.rs: packets and marshalling -/

/-- Rust `Range<u8>` (half-open); `stop` is Rust's `end` field
(`end` is a Lean keyword). -/
structure RangeN where
  start : Nat
  stop : Nat
deriving Repr, DecidableEq

/-- Model of `Range::contains`: `start <= x && x < end`. -/
def RangeN.contains (r : RangeN) (x : Nat) : Bool :=
  decide (r.start ≤ x) && decide (x < r.stop)

def GROUP_ID_RANGE : RangeN := ⟨10, 80⟩

structure ShowPacket where
  effect : EffectId
  color : Color
  attack : Nat
  sustain : Nat
  release : Nat
  param1 : Nat
  param2 : Nat
  tempo : Nat
deriving Repr, DecidableEq

/-- Rust `f32 as u8`: truncate toward zero, saturating (negative to 0,
everything above 255 to 255). -/
def ratToU8 (q : Rat) : Nat :=
  if q < 0 then 0 else min 255 q.floor.toNat

/-- Rust `f32 as u64` for `beats_to_millis`. -/
def ratToU64 (q : Rat) : Nat :=
  if q < 0 then 0 else min (2 ^ 64 - 1) q.floor.toNat

/-- Model of `Effect::populate_effect_params` (src/src/packet.rs lines 71-142):
zero `param1`/`param2`, then fill them per variant; `OneShotChase`
additionally overrides the sustain byte with its beat denominator, and
the spin variants override the tempo byte. -/
def Effect.populate_effect_params (e : Effect) (packet : ShowPacket) :
    ShowPacket :=
  let p := { packet with param1 := 0, param2 := 0 }
  match e with
  | .Firecrackers delay_quantization delay_multiplier =>
    { p with param1 := delay_quantization, param2 := delay_multiplier }
  | .Chase chase_length reverse =>
    { p with param1 := chase_length, param2 := if reverse then 1 else 0 }
  | .Strobe division => { p with param1 := division }
  | .BidiChase chase_length => { p with param1 := chase_length }
  | .OneShotChase chase_length reverse beat_denominator =>
    { p with param1 := chase_length, param2 := if reverse then 1 else 0,
             sustain := beat_denominator }
  | .BidiOneShotChase chase_length => { p with param1 := chase_length }
  | .Sparkle stride tempo_division =>
    { p with param1 := stride, param2 := tempo_division }
  | .Wave alternate_hue alternate_brightness colorspace_phase colorspace_range =>
    { p with param1 := alternate_hue ||| (alternate_brightness >>> 4),
             param2 := colorspace_range ||| (colorspace_phase >>> 4) }
  | .PiezoTrigger flash_decay threshold =>
    { p with param1 := flash_decay, param2 := threshold }
  | .Flame min_flicker max_flicker =>
    { p with param1 := min_flicker, param2 := max_flicker }
  | .Flame2 min_flicker max_flicker =>
    { p with param1 := min_flicker, param2 := max_flicker }
  | .Grass base_height blade_top =>
    { p with param1 := base_height, param2 := blade_top }
  | .CircularChase chase_length reverse =>
    { p with param1 := chase_length, param2 := if reverse then 1 else 0 }
  | .Twinkle twinkle_brightness twinkle_factor =>
    { p with param1 := twinkle_brightness,
             param2 := ratToU8 (twinkle_factor * 256) }
  | .DigitalPin pin => { p with param1 := pin }
  | .PinAndSpin pin rpm => { p with param1 := pin, tempo := rpm }
  | .PopAndSpin rpm => { p with tempo := rpm }
  | _ => p

inductive Command
  | SetGroup (group_id : Nat)
  | SetLedCount (led_count : Nat)
  | NewBrightness (brightness : Nat)
  | NewTempo (tempo : Nat)
  | Reset
deriving Repr, DecidableEq

inductive CommandId
  | SetGroup | SetLedCount | NewBrightness | NewTempo | Reset
deriving Repr, DecidableEq

def CommandId.toNat : CommandId → Nat
  | .SetGroup => 109 | .SetLedCount => 110 | .NewBrightness => 127
  | .NewTempo => 128 | .Reset => 255

def Command.to_id : Command → CommandId
  | .SetGroup _ => .SetGroup
  | .SetLedCount _ => .SetLedCount
  | .NewBrightness _ => .NewBrightness
  | .NewTempo _ => .NewTempo
  | .Reset => .Reset

def Command.populate_params : Command → List Nat
  | .SetGroup group_id => [group_id, 0, 0]
  | .SetLedCount led_count => [(led_count >>> 8) % 256, led_count &&& 0xFF, 0]
  | .NewBrightness brightness => [brightness, 0, 0]
  | .NewTempo tempo => [tempo, 0, 0]
  | .Reset => [0, 0, 0]

/-- Model of `Command::marshal`: command marker `0xFF`, the command id byte, then
three parameter bytes. -/
def Command.marshal (c : Command) : List Nat :=
  0xFF :: c.to_id.toNat :: c.populate_params

/-- Model of `ShowPacket::marshal`: ten payload bytes. -/
def ShowPacket.marshal (p : ShowPacket) : List Nat :=
  [p.effect.toNat, p.color.h, p.color.s, p.color.v,
   p.attack, p.sustain, p.release, p.param1, p.param2, p.tempo]

inductive PacketPayload
  | Control (c : Command)
  | Show (p : ShowPacket)
deriving Repr, DecidableEq

def PacketPayload.marshal : PacketPayload → List Nat
  | .Control c => c.marshal
  | .Show p => p.marshal

structure Packet where
  recipients : List Nat
  payload : PacketPayload
deriving Repr, DecidableEq

/-- Model of `Packet::is_broadcast`: empty target list, more than one target, or a
single target that is a group id.  (The `recipients[0]` access in the
third disjunct is only reached when the list has exactly one entry,
thanks to short-circuit evaluation; `headD 0` models that one entry.) -/
def Packet.is_broadcast (p : Packet) : Bool :=
  decide (p.recipients.length = 0) || decide (p.recipients.length > 1) ||
    GROUP_ID_RANGE.contains (p.recipients.headD 0)

/-- Model of `Packet::marshal`: length placeholder, destination byte, three
RadioHead compatibility bytes, the payload, the explicit recipient list
when broadcasting, and finally the length byte is poked into slot 0
(`as u8`, hence `% 256`). -/
def Packet.marshal (p : Packet) (from_id packet_id flags : Nat) : List Nat :=
  let buf :=
    [0, if p.is_broadcast then 0xFF else p.recipients.headD 0,
     from_id, packet_id, flags]
    ++ p.payload.marshal
    ++ (if p.is_broadcast then p.recipients else [])
  buf.set 0 ((buf.length - 1) % 256)

def ShowPacket.OFF_PACKET : ShowPacket :=
  { effect := .Off, color := ⟨0, 0, 0⟩, attack := 0, sustain := 0,
    release := 0, param1 := 0, param2 := 0, tempo := 0 }

def ShowPacket.TEST_PACKET : ShowPacket :=
  { effect := .BatteryTest, color := ⟨96, 255, 255⟩, attack := 25,
    sustain := 158, release := 25, param1 := 0, param2 := 0, tempo := 0 }

/-! ## showstate.rs: constants, duration encoders, receiver state -/

def SUSTAIN_CONTROLLER : Nat := 64
def TEST_CONTROLLER : Nat := 102

def ALL_RECIPIENTS : List Nat := []

def GLOBAL_RESET_PACKET : Packet :=
  { recipients := ALL_RECIPIENTS, payload := .Control .Reset }

def GLOBAL_OFF_PACKET : Packet :=
  { recipients := ALL_RECIPIENTS, payload := .Show ShowPacket.OFF_PACKET }

def GLOBAL_TEST_PACKET : Packet :=
  { recipients := ALL_RECIPIENTS, payload := .Show ShowPacket.TEST_PACKET }

/-- Model of `convert_millis_adr` (src/src/showstate.rs lines 153-158). -/
def convert_millis_adr (millis : Nat) : Nat :=
  if millis ≤ 1279 then (millis / 10) &&& 0x7F
  else ((millis / 100) &&& 0x7F) ||| 0x80

/-- Model of `convert_millis_sustain` (src/src/showstate.rs lines 162-168). -/
def convert_millis_sustain (millis : Nat) : Nat :=
  if millis = 0 then 255
  else if millis ≤ 12799 then (millis / 100) &&& 0x7F
  else ((millis / 1000) &&& 0x7F) ||| 0x80

/-- Runtime record of the last instruction sent to a receiver. -/
structure ReceiverState where
  id : Nat
  trigger_mapping : Nat
deriving Repr, DecidableEq

namespace ReceiverState

def INACTIVE : Nat := 0

def new (id : Nat) : ReceiverState := ⟨id, INACTIVE⟩

/-- Model of `ReceiverState::activate`: a non-one-shot mapping claims ownership
with its id; a one-shot mapping stores `INACTIVE`. -/
def activate (r : ReceiverState) (m : LightMapping) : ReceiverState :=
  { r with trigger_mapping :=
      if ¬ (m.one_shot.getD false) then m.get_id else INACTIVE }

def activated_by (r : ReceiverState) (m : LightMapping) : Bool :=
  r.trigger_mapping == m.get_id

/-- Model of `ReceiverState::deactivate` clears `trigger_mapping` only when this
mapping still owns the receiver (the returned `bool` is unused by the
caller and omitted). -/
def deactivate (r : ReceiverState) (m : LightMapping) : ReceiverState :=
  if r.trigger_mapping = m.get_id then { r with trigger_mapping := INACTIVE }
  else r

def is_active (r : ReceiverState) : Bool :=
  r.trigger_mapping != INACTIVE

end ReceiverState

/-! ## Runtime state -/

/-- src/src/showstate.rs `LightMappingMeta`: the resolved target byte
list and the ids of the shared `ReceiverState` cells the mapping
touches (`receivers` holds `Rc` handles in Rust; here the cell ids, in
expansion order, duplicates preserved). -/
structure LightMappingMeta where
  color : Color
  source : LightMapping
  targets : List Nat
  receivers : List Nat
deriving Repr, DecidableEq

/-- src/src/clip.rs `ClipState`.  `active_mappings` is a `HashSet` in
Rust; modelled as a duplicate-free list (insertion checks membership). -/
structure ClipState where
  playing : Bool
  step : Nat
  advance_at : Nat
  tempo : Rat
  override_color : Option Color
  active_mappings : List Nat
  steps : List ClipStep
deriving Repr, DecidableEq

/-- src/src/showstate.rs `MutableShowState`; the clip engine's per-clip
state lives behind `RefCell`s inside the otherwise immutable
`ShowState`, so it is carried here as part of the mutable state. -/
structure MutableShowState where
  last_effect : Nat
  last_lights_out : Nat
  light_mappings : List (Nat × LightMappingMeta)
  receiver_state : List ReceiverState
  sustain : Bool
  pending_off : List Nat
  clips : List (String × ClipState)
deriving Repr, DecidableEq

structure EffectOverrides where
  color : Option Color
  tempo : Option Rat
  attack : Option Nat
  sustain : Option Nat
  release : Option Nat
deriving Repr, DecidableEq

/-- The configuration fields the runtime reads (src/src/config.rs); the
window bounds and period are durations (already through `convert_secs`). -/
structure ConfigFile where
  midi_control_channel : Nat
  lights_out_window_open : Nat
  lights_out_window_close : Nat
  lights_out_period : Nat
deriving Repr, DecidableEq

def ConfigFile.lights_out_window (c : ConfigFile) : RangeN :=
  ⟨c.lights_out_window_open, c.lights_out_window_close⟩

def ConfigFile.lights_out_delay (c : ConfigFile) : Nat :=
  c.lights_out_period

/-- Dereference a shared receiver cell by id (first cell with that id;
ids are unique in reachable states).  The fallback is never exercised
when the cell exists, which the resolver guarantees in Rust. -/
def cellOf (rs : List ReceiverState) (i : Nat) : ReceiverState :=
  (rs.find? (fun r => r.id == i)).getD ⟨i, ReceiverState.INACTIVE⟩

/-- Write back one clip's state into the engine map. -/
def setClip (s : MutableShowState) (name : String) (cs : ClipState) :
    MutableShowState :=
  { s with clips := s.clips.map (fun p => if p.1 = name then (p.1, cs) else p) }

def lookup_mapping (s : MutableShowState) (mid : Nat) :
    Option LightMappingMeta :=
  (s.light_mappings.find? (fun p => p.1 == mid)).map (·.2)

def lookup_clip (s : MutableShowState) (name : String) : Option ClipState :=
  (s.clips.find? (fun p => p.1 == name)).map (·.2)

/-- Model of `ClipState::beats_to_millis`: `((beats * 60000) / tempo) as u64`. -/
def ClipState.beats_to_millis (cs : ClipState) (beats : Rat) : Nat :=
  ratToU64 ((beats * 60000) / cs.tempo)

/-- Model of `ClipState::start` (src/src/clip.rs lines 74-81): note that
`active_mappings` is left as it was. -/
def ClipState.start (cs : ClipState) (override_color : Option Color)
    (tempo : Rat) (now : Nat) : ClipState :=
  { cs with playing := true, step := 0, advance_at := now,
            tempo := tempo, override_color := override_color }

def ClipState.is_playing (cs : ClipState) : Bool := cs.playing

/-- Model of `ClipEngine::is_playing`. -/
def clips_is_playing (s : MutableShowState) : Bool :=
  s.clips.any (fun p => p.2.is_playing)

/-- Model of `ClipEngine::start_clip`: `unwrap` on an unknown clip name is a
panic (`none`). -/
def start_clip (name : String) (override_color : Option Color)
    (tempo : Rat) (s : MutableShowState) (now : Nat) :
    Option (MutableShowState × List Packet) :=
  match lookup_clip s name with
  | none => none
  | some cs => some (setClip s name (cs.start override_color tempo now), [])

/-! ## Activation (showstate.rs) -/

/-- Model of `ShowState::activate_effect`: build the show packet (overrides win
over mapping fields, defaults attack/sustain/release 0 and tempo 120),
pack effect params, send to the resolved targets, mark every receiver
cell in the expansion as activated by this mapping, and stamp
`last_effect`. -/
def activate_effect (meta : LightMappingMeta) (effect : Effect)
    (overrides : Option EffectOverrides) (s : MutableShowState) (now : Nat) :
    MutableShowState × List Packet :=
  let sp0 : ShowPacket :=
    { effect := effect.to_effect_id,
      color := ((overrides.bind (·.color)).getD meta.color),
      attack := convert_millis_adr
        (((overrides.bind (·.attack)).or meta.source.attack).getD 0),
      sustain := convert_millis_sustain
        (((overrides.bind (·.sustain)).or meta.source.sustain).getD 0),
      release := convert_millis_adr
        (((overrides.bind (·.release)).or meta.source.release).getD 0),
      param1 := 0, param2 := 0,
      tempo := ratToU8 (((overrides.bind (·.tempo)).or meta.source.tempo).getD 120) }
  let sp := effect.populate_effect_params sp0
  let packet : Packet := { recipients := meta.targets, payload := .Show sp }
  ({ s with
      receiver_state := s.receiver_state.map (fun r =>
        if meta.receivers.contains r.id then r.activate meta.source else r),
      last_effect := now },
   [packet])

/-- Model of `ShowState::activate_clip`. -/
def activate_clip (meta : LightMappingMeta) (clip : String)
    (s : MutableShowState) (now : Nat) :
    Option (MutableShowState × List Packet) :=
  let override_color :=
    if meta.source.override_clip_color.getD false then some meta.color else none
  start_clip clip override_color (meta.source.tempo.getD 120) s now

/-- Model of `ShowState::activate`: dispatch on the mapping's light type; the
`unwrap` on a missing mapping id is a panic (`none`). -/
def activate (mid : Nat) (overrides : Option EffectOverrides)
    (s : MutableShowState) (now : Nat) :
    Option (MutableShowState × List Packet) :=
  match lookup_mapping s mid with
  | none => none
  | some meta =>
    match meta.source.light with
    | .Effect e => some (activate_effect meta e overrides s now)
    | .Clip c => activate_clip meta c s now

/-! ## Deactivation and the clip interpreter (mutually recursive,
structured on an explicit fuel supply; running out of fuel models the
non-termination a `Loop`-only clip can exhibit and is reported as
`none`, like a panic) -/

/-- Model of `ShowState::deactivate_effect` (src/src/showstate.rs lines 559-594):
if every receiver in the expansion is still owned by this mapping, send
one off packet to the resolved target list; otherwise collect exactly
the still-owned receiver ids; if that dynamic list is empty send
nothing, else send one off packet to that list.  Whenever a packet is
sent, run `ReceiverState::deactivate` on every cell in the expansion
(clearing exactly the still-owned ones). -/
def deactivate_effect (meta : LightMappingMeta) (s : MutableShowState) :
    MutableShowState × List Packet :=
  let simple_off_path := meta.receivers.all
    (fun i => (cellOf s.receiver_state i).activated_by meta.source)
  let dynamic_recipients : Option (List Nat) :=
    if simple_off_path then none
    else some ((meta.receivers.filter
      (fun i => (cellOf s.receiver_state i).activated_by meta.source)).map
        (fun i => (cellOf s.receiver_state i).id))
  let packet : Packet :=
    { payload := .Show ShowPacket.OFF_PACKET,
      recipients := dynamic_recipients.getD meta.targets }
  if dynamic_recipients.isNone ||
      dynamic_recipients.any (fun r => !r.isEmpty) then
    ({ s with receiver_state := s.receiver_state.map (fun r =>
        if meta.receivers.contains r.id then r.deactivate meta.source else r) },
     [packet])
  else (s, [])

mutual

/-- Model of `ShowState::deactivate`: one-shot mappings are no-ops; otherwise
dispatch to the effect off path or to stopping the named clip. -/
def deactivate : Nat → Nat → MutableShowState →
    Option (MutableShowState × List Packet)
  | 0, _, _ => none
  | fuel + 1, mid, s =>
    match lookup_mapping s mid with
    | none => none
    | some meta =>
      if ¬ (meta.source.one_shot.getD false) then
        match meta.source.light with
        | .Effect _ => some (deactivate_effect meta s)
        | .Clip c => stop_clip fuel c s
      else some (s, [])

/-- Deactivate a list of mapping ids in order, concatenating the
emitted packets (the flush loop in `process_special_controllers` and
the drain loop in `ClipState::stop`). -/
def deactivate_list : Nat → List Nat → MutableShowState →
    Option (MutableShowState × List Packet)
  | 0, _, _ => none
  | _ + 1, [], s => some (s, [])
  | fuel + 1, mid :: rest, s =>
    match deactivate fuel mid s with
    | none => none
    | some (s1, tr1) =>
      match deactivate_list fuel rest s1 with
      | none => none
      | some (s2, tr2) => some (s2, tr1 ++ tr2)

/-- Model of `ClipEngine::stop_clip`: `unwrap` on an unknown clip name is a
panic (`none`); otherwise run `ClipState::stop` on that clip. -/
def stop_clip : Nat → String → MutableShowState →
    Option (MutableShowState × List Packet)
  | 0, _, _ => none
  | fuel + 1, name, s =>
    match lookup_clip s name with
    | none => none
    | some cs => clip_state_stop fuel name cs s

/-- Model of `ClipState::stop`: drain the owned set, deactivating each id via
the show runtime, then mark the clip not playing at step 0. -/
def clip_state_stop : Nat → String → ClipState → MutableShowState →
    Option (MutableShowState × List Packet)
  | 0, _, _, _ => none
  | fuel + 1, name, cs, s =>
    let ids := cs.active_mappings
    let s1 := setClip s name { cs with active_mappings := [] }
    match deactivate_list fuel ids s1 with
    | none => none
    | some (s2, tr) =>
      some (setClip s2 name
        { cs with active_mappings := [], playing := false, step := 0 }, tr)

/-- Model of `ClipState::play`: the `while playing && step < len` interpreter
loop, one fuel per iteration.  The clip's own state is carried locally
(the Rust code holds the `RefCell` borrow for the whole loop) and
written back into the engine map before each reentrant call and on
exit; returns the pending `advance_at` when the next step is in the
future. -/
def clip_play : Nat → String → ClipState → MutableShowState → Nat →
    Option (MutableShowState × List Packet × Option Nat)
  | 0, _, _, _, _ => none
  | fuel + 1, name, cs, s, now =>
    if cs.playing ∧ cs.step < cs.steps.length then
      if now < cs.advance_at then some (setClip s name cs, [], some cs.advance_at)
      else
        match cs.steps[cs.step]? with
        | none => none
        | some step =>
          match step with
          | .MappingOn m =>
            let overrides : EffectOverrides :=
              { color := cs.override_color, tempo := some cs.tempo,
                attack := none, sustain := none, release := none }
            (match activate m.get_id (some overrides) (setClip s name cs) now with
             | none => none
             | some (s1, tr1) =>
               let cs1 := if ¬ (m.one_shot.getD false) then
                   { cs with
                     active_mappings :=
                       (if cs.active_mappings.contains m.get_id then
                         cs.active_mappings
                       else cs.active_mappings ++ [m.get_id]),
                     step := cs.step + 1 }
                 else { cs with step := cs.step + 1 }
               (match clip_play fuel name cs1 s1 now with
                | none => none
                | some (s2, tr2, at2) => some (s2, tr1 ++ tr2, at2)))
          | .MappingOff i =>
            (match cs.steps[i]? with
             | none => none
             | some (.MappingOn m) =>
               (match deactivate fuel m.get_id (setClip s name cs) with
                | none => none
                | some (s1, tr1) =>
                  let cs1 := { cs with
                    active_mappings :=
                      cs.active_mappings.filter (fun x => x ≠ m.get_id),
                    step := cs.step + 1 }
                  (match clip_play fuel name cs1 s1 now with
                   | none => none
                   | some (s2, tr2, at2) => some (s2, tr1 ++ tr2, at2)))
             | some _ =>
               clip_play fuel name { cs with step := cs.step + 1 } s now)
          | .End =>
            clip_play fuel name { cs with playing := false } s now
          | .Loop i =>
            clip_play fuel name { cs with step := i } s now
          | .SetColor c =>
            clip_play fuel name
              { cs with override_color := some c, step := cs.step + 1 } s now
          | .SetTempo t =>
            clip_play fuel name { cs with tempo := t, step := cs.step + 1 } s now
          | .Stop =>
            (match clip_state_stop fuel name cs (setClip s name cs) with
             | none => none
             | some (s1, tr1) =>
               (match clip_play fuel name
                   { cs with active_mappings := [], playing := false,
                             step := 0 } s1 now with
                | none => none
                | some (s2, tr2, at2) => some (s2, tr1 ++ tr2, at2)))
          | .StopOther other =>
            (match stop_clip fuel other (setClip s name cs) with
             | none => none
             | some (s1, tr1) =>
               (match clip_play fuel name { cs with step := cs.step + 1 } s1 now with
                | none => none
                | some (s2, tr2, at2) => some (s2, tr1 ++ tr2, at2)))
          | .WaitBeats b =>
            clip_play fuel name
              { cs with advance_at := now + cs.beats_to_millis b,
                        step := cs.step + 1 } s now
          | .WaitMillis ms =>
            clip_play fuel name
              { cs with advance_at := now + ms, step := cs.step + 1 } s now
    else some (setClip s name cs, [], none)

end

/-- The fold in `ClipEngine::play_clips` that keeps the earliest
next-wake instant: replace the accumulator when this clip reports one
and it is strictly earlier (or the accumulator is empty). -/
def minWake (acc this : Option Nat) : Option Nat :=
  if this.isSome ∧ (acc.isNone ∨ this.getD 0 < acc.getD 0) then this else acc

/-- Iterate the clip map (list order stands in for the unspecified
`HashMap` iteration order), playing each clip and folding the earliest
next-wake instant. -/
def play_clips_list : Nat → List String → MutableShowState → Nat →
    Option Nat → Option (MutableShowState × List Packet × Option Nat)
  | _, [], s, _, acc => some (s, [], acc)
  | fuel, name :: rest, s, now, acc =>
    match lookup_clip s name with
    | none => none
    | some cs =>
      match clip_play fuel name cs s now with
      | none => none
      | some (s1, tr1, at1) =>
        match play_clips_list fuel rest s1 now (minWake acc at1) with
        | none => none
        | some (s2, tr2, at2) => some (s2, tr1 ++ tr2, at2)

/-- Model of `ClipEngine::play_clips`. -/
def play_clips (fuel : Nat) (s : MutableShowState) (now : Nat) :
    Option (MutableShowState × List Packet × Option Nat) :=
  play_clips_list fuel (s.clips.map (·.1)) s now none

/-- Model of `ShowState::tick` (src/src/showstate.rs lines 507-527): advance the
clips, then, if no receiver is active, no clip is playing, the idle
time lies inside the lights-out window and at least one period has
elapsed since the previous lights-out packet, broadcast the global off
packet and stamp `last_lights_out`.  Returns the next wake delay. -/
def tick (fuel : Nat) (config : ConfigFile) (s : MutableShowState)
    (now : Nat) : Option (MutableShowState × List Packet × Nat) :=
  match play_clips fuel s now with
  | none => none
  | some (s1, trace, play_clips_at) =>
    let receiver_active := s1.receiver_state.any (fun rs => rs.is_active)
    let wake := min config.lights_out_delay
      (play_clips_at.elim config.lights_out_delay (fun t => t - now))
    if ¬ receiver_active ∧ ¬ clips_is_playing s1 ∧
        config.lights_out_window.contains (now - s1.last_effect) ∧
        config.lights_out_delay ≤ now - s1.last_lights_out then
      some ({ s1 with last_lights_out := now },
            trace ++ [GLOBAL_OFF_PACKET], wake)
    else some (s1, trace, wake)

/-- Model of `ShowState::deactivate_from_midi`: live deactivations are buffered
while sustain is held. -/
def deactivate_from_midi (fuel : Nat) (mid : Nat) (s : MutableShowState) :
    Option (MutableShowState × List Packet) :=
  if s.sustain then some ({ s with pending_off := s.pending_off ++ [mid] }, [])
  else deactivate fuel mid s

/-- Model of `ShowState::process_special_controllers` (src/src/showstate.rs lines
392-425).  Returns the updated state, the emitted packets, and the
handled flag. -/
def process_special_controllers (fuel : Nat) (config : ConfigFile)
    (channel controller value : Nat) (s : MutableShowState) (now : Nat) :
    Option (MutableShowState × List Packet × Bool) :=
  if channel = config.midi_control_channel then
    if controller = SUSTAIN_CONTROLLER then
      if value = 127 then some ({ s with sustain := true }, [], true)
      else if value = 0 then
        let s1 := { s with sustain := false }
        match deactivate_list fuel s1.pending_off s1 with
        | none => none
        | some (s2, trace) =>
          some ({ s2 with pending_off := [] }, trace, true)
      else some (s, [], true)
    else if controller = TEST_CONTROLLER then
      if value = 127 then
        some ({ s with last_effect := now }, [GLOBAL_TEST_PACKET], true)
      else some (s, [GLOBAL_OFF_PACKET], true)
    else some (s, [], false)
  else some (s, [], false)

/-! ## Helper lemmas -/

/-- Behaviour of the 7-bit mask and the high bit on in-range values. -/
lemma and_or_mask_small : ∀ x < 128, x &&& 127 = x ∧ x ||| 128 = 128 + x := by
  decide

/-- The cell handed back for id `i` always carries id `i` (both the
found cell and the fallback do). -/
lemma cellOf_id (rs : List ReceiverState) (i : Nat) : (cellOf rs i).id = i := by
  unfold cellOf
  cases hf : rs.find? (fun r => r.id == i) with
  | none => rfl
  | some r =>
    have h := List.find?_some hf
    have hr : r.id = i := by simpa using h
    simpa using hr

/-- With duplicate-free ids, dereferencing a member cell's id yields
that very cell. -/
lemma cellOf_of_mem {rs : List ReceiverState}
    (hnd : (rs.map (·.id)).Nodup) {r : ReceiverState} (hr : r ∈ rs) :
    cellOf rs r.id = r := by
  induction rs with
  | nil => cases hr
  | cons a rest ih =>
    rcases List.mem_cons.mp hr with rfl | hmem
    · unfold cellOf
      simp [List.find?_cons_eq_some]
    · have hnd' : (rest.map (·.id)).Nodup := (List.nodup_cons.mp hnd).2
      have hne : a.id ≠ r.id := by
        intro h
        exact (List.nodup_cons.mp hnd).1
          (by show a.id ∈ _; rw [h]; exact List.mem_map_of_mem _ hmem)
      have : cellOf rest r.id = r := ih hnd' hmem
      unfold cellOf at this ⊢
      rw [List.find?_cons_of_neg]
      · exact this
      · simp [hne]

/-! ## Claim theorems -/

/-- C3: the duration encoders match the spec's band definitions: attack
and release encode as `(ms/10) & 0x7F` (high bit clear) up to 1279 ms
and as `((ms/100) & 0x7F) | 0x80` from 1280 ms; sustain encodes 0 as
the 255 sentinel, as `(ms/100) & 0x7F` for 1..12799 ms, and as
`((ms/1000) & 0x7F) | 0x80` from 12800 ms; and the boundary values are
`adr(1279)=127`, `adr(1280)=140`, `sustain(0)=255`, `sustain(1)=0`,
`sustain(12800)=140`. -/
theorem convert_millis_band_encoding (millis : Nat) :
    (millis ≤ 1279 →
      convert_millis_adr millis = (millis / 10) &&& 0x7F ∧
      convert_millis_adr millis < 0x80) ∧
    (1280 ≤ millis →
      convert_millis_adr millis = ((millis / 100) &&& 0x7F) ||| 0x80) ∧
    (millis = 0 → convert_millis_sustain millis = 255) ∧
    (1 ≤ millis → millis ≤ 12799 →
      convert_millis_sustain millis = (millis / 100) &&& 0x7F) ∧
    (12800 ≤ millis →
      convert_millis_sustain millis = ((millis / 1000) &&& 0x7F) ||| 0x80) ∧
    convert_millis_adr 1279 = 127 ∧ convert_millis_adr 1280 = 140 ∧
    convert_millis_sustain 0 = 255 ∧ convert_millis_sustain 1 = 0 ∧
    convert_millis_sustain 12800 = 140 := by
  refine ⟨fun h => ?_, fun h => ?_, fun h => ?_, fun h1 h2 => ?_,
    fun h => ?_, by decide, by decide, by decide, by decide, by decide⟩
  · rw [convert_millis_adr, if_pos h]
    exact ⟨rfl, Nat.lt_succ_of_le Nat.and_le_right⟩
  · rw [convert_millis_adr, if_neg (by omega)]
  · rw [convert_millis_sustain, if_pos h]
  · rw [convert_millis_sustain, if_neg (by omega), if_pos h2]
  · rw [convert_millis_sustain, if_neg (by omega), if_neg (by omega)]

theorem convert_millis_band_encoding_witness :
    convert_millis_adr 1279 = (1279 / 10) &&& 0x7F ∧
    convert_millis_adr 1280 = ((1280 / 100) &&& 0x7F) ||| 0x80 ∧
    convert_millis_sustain 500 = (500 / 100) &&& 0x7F ∧
    convert_millis_sustain 12800 = ((12800 / 1000) &&& 0x7F) ||| 0x80 :=
  ⟨((convert_millis_band_encoding 1279).1 (by decide)).1,
   (convert_millis_band_encoding 1280).2.1 (by decide),
   (convert_millis_band_encoding 500).2.2.2.1 (by decide) (by decide),
   (convert_millis_band_encoding 12800).2.2.2.2.1 (by decide)⟩

/-- C9 counterexample: the upper encoder bands are *not* monotone over
their whole range: the 7-bit mask wraps once the divided value exceeds
127, so `adr(12700) = 255 > adr(12800) = 128` although
`1280 ≤ 12700 ≤ 12800`, and `sustain(127000) = 255 > sustain(128000) =
128` although `12800 ≤ 127000 ≤ 128000`. -/
theorem convert_millis_monotone_counterexample :
    1280 ≤ 12700 ∧ 12700 ≤ 12800 ∧
    ¬ convert_millis_adr 12700 ≤ convert_millis_adr 12800 ∧
    12800 ≤ 127000 ∧ 127000 ≤ 128000 ∧
    ¬ convert_millis_sustain 127000 ≤ convert_millis_sustain 128000 := by
  decide

/-- C9 (amended): each duration encoder is non-decreasing within each
band only as long as the divided value stays within the 7-bit mask:
`convert_millis_adr` is non-decreasing on `0..=1279` and on
`1280..=12799`, and `convert_millis_sustain` is non-decreasing on
`1..=12799` and on `12800..=127999`; beyond those points the `& 0x7F`
mask wraps and the encoding ceases to be monotone. -/
theorem convert_millis_monotone_within_mask_bands :
    (∀ m1 m2, m1 ≤ m2 → m2 ≤ 1279 →
      convert_millis_adr m1 ≤ convert_millis_adr m2) ∧
    (∀ m1 m2, 1280 ≤ m1 → m1 ≤ m2 → m2 ≤ 12799 →
      convert_millis_adr m1 ≤ convert_millis_adr m2) ∧
    (∀ m1 m2, 1 ≤ m1 → m1 ≤ m2 → m2 ≤ 12799 →
      convert_millis_sustain m1 ≤ convert_millis_sustain m2) ∧
    (∀ m1 m2, 12800 ≤ m1 → m1 ≤ m2 → m2 ≤ 127999 →
      convert_millis_sustain m1 ≤ convert_millis_sustain m2) := by
  refine ⟨fun m1 m2 h12 h2 => ?_, fun m1 m2 h1 h12 h2 => ?_,
    fun m1 m2 h1 h12 h2 => ?_, fun m1 m2 h1 h12 h2 => ?_⟩
  · rw [convert_millis_adr, if_pos (by omega), convert_millis_adr, if_pos h2]
    rw [(and_or_mask_small (m1 / 10) (by omega)).1,
        (and_or_mask_small (m2 / 10) (by omega)).1]
    omega
  · rw [convert_millis_adr, if_neg (by omega), convert_millis_adr,
        if_neg (by omega)]
    rw [(and_or_mask_small (m1 / 100) (by omega)).1,
        (and_or_mask_small (m2 / 100) (by omega)).1,
        (and_or_mask_small (m1 / 100) (by omega)).2,
        (and_or_mask_small (m2 / 100) (by omega)).2]
    omega
  · rw [convert_millis_sustain, if_neg (by omega), if_pos (by omega),
        convert_millis_sustain, if_neg (by omega), if_pos h2]
    rw [(and_or_mask_small (m1 / 100) (by omega)).1,
        (and_or_mask_small (m2 / 100) (by omega)).1]
    omega
  · rw [convert_millis_sustain, if_neg (by omega), if_neg (by omega),
        convert_millis_sustain, if_neg (by omega), if_neg (by omega)]
    rw [(and_or_mask_small (m1 / 1000) (by omega)).1,
        (and_or_mask_small (m2 / 1000) (by omega)).1,
        (and_or_mask_small (m1 / 1000) (by omega)).2,
        (and_or_mask_small (m2 / 1000) (by omega)).2]
    omega

theorem convert_millis_monotone_within_mask_bands_witness :
    convert_millis_adr 100 ≤ convert_millis_adr 1279 ∧
    convert_millis_adr 1280 ≤ convert_millis_adr 12799 ∧
    convert_millis_sustain 1 ≤ convert_millis_sustain 12799 ∧
    convert_millis_sustain 12800 ≤ convert_millis_sustain 127999 :=
  ⟨convert_millis_monotone_within_mask_bands.1 100 1279 (by decide) (by decide),
   convert_millis_monotone_within_mask_bands.2.1 1280 12799 (by decide)
     (by decide) (by decide),
   convert_millis_monotone_within_mask_bands.2.2.1 1 12799 (by decide)
     (by decide) (by decide),
   convert_millis_monotone_within_mask_bands.2.2.2 12800 127999 (by decide)
     (by decide) (by decide)⟩

/-- C7 counterexample: `ClipState::start` does *not* clear the owned
set: a clip that still owned mapping 7 from an earlier run still owns
it after being restarted. -/
theorem clip_start_keeps_owned_set_counterexample :
    (ClipState.start
      { playing := false, step := 3, advance_at := 11, tempo := 100,
        override_color := none, active_mappings := [7],
        steps := [ClipStep.End] } none 120 42).active_mappings = [7] ∧
    [7] ≠ ([] : List Nat) := by
  exact ⟨rfl, by decide⟩

/-- C7 (amended): `ClipState::start` resets the step index to 0, sets
`advance_at` to now, marks the clip playing, and installs the given
tempo and color override, but it leaves the owned set (and the step
list) unchanged: a restarted clip retains the active mapping ids of an
earlier run. -/
theorem clip_start_resets_fields (cs : ClipState) (oc : Option Color)
    (t : Rat) (now : Nat) :
    cs.start oc t now =
      { playing := true, step := 0, advance_at := now, tempo := t,
        override_color := oc, active_mappings := cs.active_mappings,
        steps := cs.steps } := rfl

/-- The receiver update that `deactivate_effect` performs when it sends
a packet. -/
def offUpdate (meta : LightMappingMeta) (rs : List ReceiverState) :
    List ReceiverState :=
  rs.map (fun r =>
    if meta.receivers.contains r.id then r.deactivate meta.source else r)

lemma deactivate_effect_simple (meta : LightMappingMeta)
    (s : MutableShowState)
    (h : meta.receivers.all
      (fun i => (cellOf s.receiver_state i).activated_by meta.source) = true) :
    deactivate_effect meta s =
      ({ s with receiver_state := offUpdate meta s.receiver_state },
       [{ recipients := meta.targets,
          payload := .Show ShowPacket.OFF_PACKET }]) := by
  unfold deactivate_effect offUpdate
  simp [h]

lemma deactivate_effect_dynamic (meta : LightMappingMeta)
    (s : MutableShowState)
    (h : meta.receivers.all
      (fun i => (cellOf s.receiver_state i).activated_by meta.source) = false)
    (hne : meta.receivers.filter
      (fun i => (cellOf s.receiver_state i).activated_by meta.source) ≠ []) :
    deactivate_effect meta s =
      ({ s with receiver_state := offUpdate meta s.receiver_state },
       [{ recipients := (meta.receivers.filter
            (fun i => (cellOf s.receiver_state i).activated_by meta.source)).map
              (fun i => (cellOf s.receiver_state i).id),
          payload := .Show ShowPacket.OFF_PACKET }]) := by
  unfold deactivate_effect offUpdate
  obtain ⟨x, xs, hxx⟩ := List.exists_cons_of_ne_nil hne
  simp [h, hxx]

lemma deactivate_effect_noop (meta : LightMappingMeta)
    (s : MutableShowState)
    (h : meta.receivers.all
      (fun i => (cellOf s.receiver_state i).activated_by meta.source) = false)
    (he : meta.receivers.filter
      (fun i => (cellOf s.receiver_state i).activated_by meta.source) = []) :
    deactivate_effect meta s = (s, []) := by
  unfold deactivate_effect
  simp [h, he]

lemma offUpdate_pointwise (meta : LightMappingMeta)
    (rs : List ReceiverState) (j : Nat) (r : ReceiverState)
    (h : rs[j]? = some r) :
    (offUpdate meta rs)[j]? = some
      ⟨r.id, if r.id ∈ meta.receivers ∧
               r.trigger_mapping = meta.source.get_id
             then ReceiverState.INACTIVE else r.trigger_mapping⟩ := by
  obtain ⟨rid, rtm⟩ := r
  unfold offUpdate
  rw [List.getElem?_map, h]
  by_cases hc : rid ∈ meta.receivers
  · by_cases ht : rtm = meta.source.get_id <;>
      simp [ReceiverState.deactivate, hc, ht, List.contains, List.elem_eq_mem]
  · simp [hc, List.contains, List.elem_eq_mem]

/-- C1: `deactivate_effect` follows the ownership discipline.  With
duplicate-free receiver-cell ids: every cell in the expansion whose
`trigger_mapping` is still this mapping's id (and only such cells) is
cleared to 0; if every expansion cell is still owned, exactly one off
packet goes to the resolved target list; otherwise, if at least one is
still owned, exactly one off packet goes to exactly the still-owned
ids; if none is still owned, nothing is sent and the state does not
change.  Cells owned by another mapping are never touched. -/
theorem deactivate_effect_ownership (meta : LightMappingMeta)
    (s : MutableShowState)
    (hnd : (s.receiver_state.map (fun r => r.id)).Nodup) :
    (∀ (j : Nat) (r : ReceiverState), s.receiver_state[j]? = some r →
      (deactivate_effect meta s).1.receiver_state[j]? = some
        ⟨r.id, if r.id ∈ meta.receivers ∧
                 r.trigger_mapping = meta.source.get_id
               then ReceiverState.INACTIVE else r.trigger_mapping⟩) ∧
    ((∀ i ∈ meta.receivers,
        (cellOf s.receiver_state i).trigger_mapping = meta.source.get_id) →
      (deactivate_effect meta s).2 =
        [{ recipients := meta.targets,
           payload := .Show ShowPacket.OFF_PACKET }]) ∧
    ((¬ ∀ i ∈ meta.receivers,
        (cellOf s.receiver_state i).trigger_mapping = meta.source.get_id) →
      (∃ i ∈ meta.receivers,
        (cellOf s.receiver_state i).trigger_mapping = meta.source.get_id) →
      (deactivate_effect meta s).2 =
        [{ recipients := meta.receivers.filter (fun i =>
             (cellOf s.receiver_state i).trigger_mapping ==
               meta.source.get_id),
           payload := .Show ShowPacket.OFF_PACKET }]) ∧
    ((¬ ∀ i ∈ meta.receivers,
        (cellOf s.receiver_state i).trigger_mapping = meta.source.get_id) →
      (∀ i ∈ meta.receivers,
        (cellOf s.receiver_state i).trigger_mapping ≠ meta.source.get_id) →
      deactivate_effect meta s = (s, [])) ∧
    (∀ (j : Nat) (r : ReceiverState), s.receiver_state[j]? = some r →
      r.trigger_mapping ≠ meta.source.get_id →
      (deactivate_effect meta s).1.receiver_state[j]? = some r) := by
  have hallIff : (meta.receivers.all
      (fun i => (cellOf s.receiver_state i).activated_by meta.source) = true)
      ↔ (∀ i ∈ meta.receivers,
        (cellOf s.receiver_state i).trigger_mapping = meta.source.get_id) := by
    simp [List.all_eq_true, ReceiverState.activated_by]
  have hfilterIff : (meta.receivers.filter
      (fun i => (cellOf s.receiver_state i).activated_by meta.source) = [])
      ↔ (∀ i ∈ meta.receivers,
        (cellOf s.receiver_state i).trigger_mapping ≠ meta.source.get_id) := by
    simp [List.filter_eq_nil_iff, ReceiverState.activated_by]
  by_cases hs : ∀ i ∈ meta.receivers,
      (cellOf s.receiver_state i).trigger_mapping = meta.source.get_id
  · have hde := deactivate_effect_simple meta s (hallIff.mpr hs)
    refine ⟨?_, ?_, ?_, ?_, ?_⟩
    · intro j r hj
      rw [hde]
      simpa using offUpdate_pointwise meta s.receiver_state j r hj
    · intro _
      rw [hde]
    · intro hna _
      exact absurd hs hna
    · intro hna _
      exact absurd hs hna
    · intro j r hj ht
      rw [hde]
      simpa [ht] using offUpdate_pointwise meta s.receiver_state j r hj
  · have hb : (meta.receivers.all
        (fun i => (cellOf s.receiver_state i).activated_by meta.source))
        = false := by
      rw [Bool.eq_false_iff]
      intro h
      exact hs (hallIff.mp h)
    by_cases hex : ∃ i ∈ meta.receivers,
        (cellOf s.receiver_state i).trigger_mapping = meta.source.get_id
    · obtain ⟨i0, hi0, ho0⟩ := hex
      have hne : meta.receivers.filter
          (fun i => (cellOf s.receiver_state i).activated_by meta.source)
          ≠ [] := by
        intro h
        exact (hfilterIff.mp h) i0 hi0 ho0
      have hde := deactivate_effect_dynamic meta s hb hne
      have hmapid : (meta.receivers.filter
          (fun i => (cellOf s.receiver_state i).activated_by
            meta.source)).map (fun i => (cellOf s.receiver_state i).id) =
          meta.receivers.filter
            (fun i => (cellOf s.receiver_state i).trigger_mapping ==
              meta.source.get_id) := by
        rw [List.map_congr_left (fun i _ => cellOf_id s.receiver_state i)]
        exact List.map_id' _
      refine ⟨?_, ?_, ?_, ?_, ?_⟩
      · intro j r hj
        rw [hde]
        simpa using offUpdate_pointwise meta s.receiver_state j r hj
      · intro ha
        exact absurd ha hs
      · intro _ _
        rw [hde]
        simp [hmapid]
      · intro _ hnone
        exact absurd ho0 (hnone i0 hi0)
      · intro j r hj ht
        rw [hde]
        simpa [ht] using offUpdate_pointwise meta s.receiver_state j r hj
    · have hnone : ∀ i ∈ meta.receivers,
          (cellOf s.receiver_state i).trigger_mapping ≠ meta.source.get_id :=
        fun i hi h => hex ⟨i, hi, h⟩
      have hde := deactivate_effect_noop meta s hb (hfilterIff.mpr hnone)
      refine ⟨?_, ?_, ?_, ?_, ?_⟩
      · intro j r hj
        rw [hde]
        have hif : ¬ (r.id ∈ meta.receivers ∧
            r.trigger_mapping = meta.source.get_id) := by
          rintro ⟨hmem, ht⟩
          have hrmem : r ∈ s.receiver_state := List.getElem?_mem hj
          have hco := cellOf_of_mem hnd hrmem
          exact hnone r.id hmem (by rw [hco]; exact ht)
        rw [if_neg hif, hj]
      · intro ha
        exact absurd ha hs
      · intro _ hex2
        exact absurd hex2 hex
      · intro _ _
        exact hde
      · intro j r hj ht
        rw [hde, hj]

/-- Fixture for C2: a one-shot effect mapping (id 7) whose expansion is
receiver 80. -/
def oneShotMapping : LightMapping :=
  { id := 7, cue := "os", light := .Effect .Pop, override_clip_color := none,
    attack := none, sustain := none, release := none,
    one_shot := some true, tempo := none }

def oneShotMeta : LightMappingMeta :=
  { color := ⟨1, 2, 3⟩, source := oneShotMapping, targets := [80],
    receivers := [80] }

/-- C2 fixture: receiver 80 currently owned by mapping 5. -/
def ownedElsewhereState : MutableShowState :=
  { last_effect := 0, last_lights_out := 0,
    light_mappings := [(7, oneShotMeta)],
    receiver_state := [⟨80, 5⟩], sustain := false, pending_off := [],
    clips := [] }

/-- C2 counterexample: activating a one-shot mapping *does* change a
targeted receiver's `trigger_mapping`: receiver 80 holds 5 (owned by
mapping 5) before the activation and 0 afterwards —
`ReceiverState::activate` writes `INACTIVE` for one-shot mappings
instead of leaving the field alone. -/
theorem one_shot_activate_overwrite_counterexample :
    ownedElsewhereState.receiver_state = [⟨80, 5⟩] ∧
    (activate_effect oneShotMeta .Pop none
        ownedElsewhereState 1).1.receiver_state = [⟨80, 0⟩] ∧
    (5 : Nat) ≠ 0 := by
  refine ⟨rfl, rfl, by decide⟩

/-- C2 (amended): a one-shot mapping never *claims* ownership:
activating it writes `INACTIVE` (0) — never its own id — into every
receiver cell of its expansion, leaving cells outside the expansion
untouched (so a cell owned by another mapping is overwritten to 0, not
preserved); and deactivating a one-shot mapping emits no packets and
leaves the entire state unchanged. -/
theorem one_shot_ownership_discipline (meta : LightMappingMeta)
    (hone : meta.source.one_shot.getD false = true) :
    (∀ (e : Effect) (ov : Option EffectOverrides) (s : MutableShowState)
       (now j : Nat) (r : ReceiverState),
      s.receiver_state[j]? = some r →
      (activate_effect meta e ov s now).1.receiver_state[j]? = some
        ⟨r.id, if r.id ∈ meta.receivers then ReceiverState.INACTIVE
               else r.trigger_mapping⟩) ∧
    (∀ (fuel mid : Nat) (s : MutableShowState),
      lookup_mapping s mid = some meta →
      deactivate (fuel + 1) mid s = some (s, [])) := by
  constructor
  · intro e ov s now j r hj
    obtain ⟨rid, rtm⟩ := r
    show (s.receiver_state.map (fun x =>
      if meta.receivers.contains x.id then x.activate meta.source
      else x))[j]? = _
    rw [List.getElem?_map, hj]
    by_cases hc : rid ∈ meta.receivers
    · simp [ReceiverState.activate, hone, hc, List.contains,
        List.elem_eq_mem]
    · simp [hc, List.contains, List.elem_eq_mem]
  · intro fuel mid s hlk
    simp [deactivate, hlk, hone]

theorem one_shot_ownership_discipline_witness :
    (activate_effect oneShotMeta .Pop none
        ownedElsewhereState 1).1.receiver_state[0]? = some ⟨80, 0⟩ ∧
    deactivate 1 7 ownedElsewhereState = some (ownedElsewhereState, []) := by
  constructor
  · have h := (one_shot_ownership_discipline oneShotMeta rfl).1 .Pop none
      ownedElsewhereState 1 0 ⟨80, 5⟩ rfl
    simpa using h
  · exact (one_shot_ownership_discipline oneShotMeta rfl).2 0 7
      ownedElsewhereState rfl

/-- C8 fixture: a playing clip "a" whose first step stops the
nonexistent clip "b". -/
def strandedClip : ClipState :=
  { playing := true, step := 0, advance_at := 0, tempo := 120,
    override_color := none, active_mappings := [],
    steps := [ClipStep.StopOther "b"] }

def strandedState : MutableShowState :=
  { last_effect := 0, last_lights_out := 0, light_mappings := [],
    receiver_state := [], sustain := false, pending_off := [],
    clips := [("a", strandedClip)] }

/-- C8: a `StopOther(name)` step naming an unknown clip is *not*
silently ignored: `ClipEngine::stop_clip` unwraps the failed clip-map
lookup, so the program panics (`none` in the model); the panic
propagates through the step interpreter, `play_clips` and `tick`
instead of the clip advancing to its next step. -/
theorem stop_other_unknown_clip_panics :
    stop_clip 5 "b" strandedState = none ∧
    clip_play 5 "a" strandedClip strandedState 0 = none ∧
    play_clips 5 strandedState 0 = none ∧
    tick 5 ⟨0, 0, 0, 0⟩ strandedState 0 = none := by
  refine ⟨rfl, rfl, rfl, rfl⟩

/-- C10: on the control channel, the test controller (cc 102) with
value 127 sends the global test packet and stamps `last_effect := now`
(re-arming the lights-out idle window); any other value sends the
global off packet and leaves `last_effect` unchanged; in both cases the
receiver states, the sustain flag, the pending-off buffer and
`last_lights_out` are untouched. -/
theorem test_controller_behavior (fuel : Nat) (config : ConfigFile)
    (channel value : Nat) (s : MutableShowState) (now : Nat)
    (hch : channel = config.midi_control_channel) :
    process_special_controllers fuel config channel TEST_CONTROLLER value
        s now =
      some ((if value = 127 then { s with last_effect := now } else s),
        [if value = 127 then GLOBAL_TEST_PACKET else GLOBAL_OFF_PACKET],
        true) ∧
    (∀ s2 tr b,
      process_special_controllers fuel config channel TEST_CONTROLLER value
          s now = some (s2, tr, b) →
      s2.receiver_state = s.receiver_state ∧ s2.sustain = s.sustain ∧
      s2.pending_off = s.pending_off ∧
      s2.last_lights_out = s.last_lights_out ∧
      (value = 127 → s2.last_effect = now) ∧
      (value ≠ 127 → s2.last_effect = s.last_effect)) := by
  have hmain : process_special_controllers fuel config channel
      TEST_CONTROLLER value s now =
      some ((if value = 127 then { s with last_effect := now } else s),
        [if value = 127 then GLOBAL_TEST_PACKET else GLOBAL_OFF_PACKET],
        true) := by
    rw [process_special_controllers, if_pos hch]
    rw [if_neg (by simp [TEST_CONTROLLER, SUSTAIN_CONTROLLER])]
    rw [if_pos rfl]
    by_cases hv : value = 127
    · rw [if_pos hv, if_pos hv, if_pos hv]
    · rw [if_neg hv, if_neg hv, if_neg hv]
  refine ⟨hmain, ?_⟩
  intro s2 tr b h
  rw [hmain] at h
  simp only [Option.some.injEq, Prod.mk.injEq] at h
  obtain ⟨hs2, -, -⟩ := h
  subst hs2
  by_cases hv : value = 127
  · simp [hv]
  · simp [hv]

/-- C10 witness fixture. -/
def quietState : MutableShowState :=
  { last_effect := 0, last_lights_out := 0, light_mappings := [],
    receiver_state := [⟨80, 4⟩], sustain := true, pending_off := [2],
    clips := [] }

theorem test_controller_behavior_witness :
    process_special_controllers 1 ⟨3, 0, 0, 0⟩ 3 TEST_CONTROLLER 127
        quietState 9 =
      some ({ quietState with last_effect := 9 },
        [GLOBAL_TEST_PACKET], true) ∧
    process_special_controllers 1 ⟨3, 0, 0, 0⟩ 3 TEST_CONTROLLER 0
        quietState 9 =
      some (quietState, [GLOBAL_OFF_PACKET], true) := by
  constructor
  · have h := (test_controller_behavior 1 ⟨3, 0, 0, 0⟩ 3 127 quietState
      9 rfl).1
    simpa using h
  · have h := (test_controller_behavior 1 ⟨3, 0, 0, 0⟩ 3 0 quietState
      9 rfl).1
    simpa using h

/-! ## Frame facts about the deactivation/clip call graph, used by the
sustain-buffering and lights-out claims -/

/-- The runtime fields that the whole deactivation/clip call graph
never writes. -/
def frame_fields (a b : MutableShowState) : Prop :=
  a.sustain = b.sustain ∧ a.pending_off = b.pending_off ∧
  a.last_lights_out = b.last_lights_out

lemma frame_fields_refl (s : MutableShowState) : frame_fields s s :=
  ⟨rfl, rfl, rfl⟩

lemma frame_fields_trans {a b c : MutableShowState}
    (h1 : frame_fields a b) (h2 : frame_fields b c) : frame_fields a c :=
  ⟨h1.1.trans h2.1, h1.2.1.trans h2.2.1, h1.2.2.trans h2.2.2⟩

lemma setClip_frame (s : MutableShowState) (name : String) (cs : ClipState) :
    frame_fields (setClip s name cs) s := ⟨rfl, rfl, rfl⟩

lemma deactivate_effect_frame (meta : LightMappingMeta)
    (s : MutableShowState) :
    frame_fields (deactivate_effect meta s).1 s := by
  unfold deactivate_effect
  dsimp only
  split <;>
    first
      | exact ⟨rfl, rfl, rfl⟩
      | (split <;> exact ⟨rfl, rfl, rfl⟩)

lemma activate_frame (mid : Nat) (ov : Option EffectOverrides)
    (s : MutableShowState) (now : Nat) (r : MutableShowState × List Packet)
    (h : activate mid ov s now = some r) : frame_fields r.1 s := by
  unfold activate at h
  cases hlk : lookup_mapping s mid with
  | none =>
    rw [hlk] at h
    exact absurd h (by simp)
  | some meta =>
    rw [hlk] at h
    dsimp only at h
    cases hlight : meta.source.light with
    | Effect e =>
      rw [hlight] at h
      rw [Option.some_inj] at h
      subst h
      exact ⟨rfl, rfl, rfl⟩
    | Clip c =>
      rw [hlight] at h
      unfold activate_clip start_clip at h
      dsimp only at h
      cases hlc : lookup_clip s c with
      | none =>
        rw [hlc] at h
        exact absurd h (by simp)
      | some cs =>
        rw [hlc] at h
        rw [Option.some_inj] at h
        subst h
        exact ⟨rfl, rfl, rfl⟩

lemma runtime_frame (fuel : Nat) :
    (∀ mid s r, deactivate fuel mid s = some r → frame_fields r.1 s) ∧
    (∀ ids s r, deactivate_list fuel ids s = some r → frame_fields r.1 s) ∧
    (∀ name s r, stop_clip fuel name s = some r → frame_fields r.1 s) ∧
    (∀ name cs s r, clip_state_stop fuel name cs s = some r →
      frame_fields r.1 s) ∧
    (∀ name cs s now r, clip_play fuel name cs s now = some r →
      frame_fields r.1 s) := by
  induction fuel with
  | zero =>
    refine ⟨?_, ?_, ?_, ?_, ?_⟩
    · intro mid s r h
      exact absurd h (by simp [deactivate])
    · intro ids s r h
      exact absurd h (by simp [deactivate_list])
    · intro name s r h
      exact absurd h (by simp [stop_clip])
    · intro name cs s r h
      exact absurd h (by simp [clip_state_stop])
    · intro name cs s now r h
      exact absurd h (by simp [clip_play])
  | succ fuel ih =>
    obtain ⟨ihD, ihL, ihS, ihCS, ihP⟩ := ih
    have hD : ∀ mid s r, deactivate (fuel + 1) mid s = some r →
        frame_fields r.1 s := by
      intro mid s r h
      rw [deactivate] at h
      split at h
      · exact absurd h (by simp)
      · split at h
        · split at h
          · rw [Option.some_inj] at h
            subst h
            exact deactivate_effect_frame _ _
          · exact ihS _ _ _ h
        · rw [Option.some_inj] at h
          subst h
          exact frame_fields_refl s
    have hL : ∀ ids s r, deactivate_list (fuel + 1) ids s = some r →
        frame_fields r.1 s := by
      intro ids s r h
      match ids with
      | [] =>
        rw [deactivate_list] at h
        rw [Option.some_inj] at h
        subst h
        exact frame_fields_refl s
      | mid :: rest =>
        rw [deactivate_list] at h
        cases hd : deactivate fuel mid s with
        | none =>
          rw [hd] at h
          exact absurd h (by simp)
        | some r1 =>
          rw [hd] at h
          obtain ⟨s1, tr1⟩ := r1
          dsimp only at h
          cases hl : deactivate_list fuel rest s1 with
          | none =>
            rw [hl] at h
            exact absurd h (by simp)
          | some r2 =>
            rw [hl] at h
            obtain ⟨s2, tr2⟩ := r2
            dsimp only at h
            rw [Option.some_inj] at h
            subst h
            exact frame_fields_trans (ihL rest s1 (s2, tr2) hl)
              (ihD mid s (s1, tr1) hd)
    have hCS : ∀ name cs s r, clip_state_stop (fuel + 1) name cs s = some r →
        frame_fields r.1 s := by
      intro name cs s r h
      rw [clip_state_stop] at h
      try dsimp only at h
      cases hl : deactivate_list fuel cs.active_mappings
          (setClip s name { cs with active_mappings := [] }) with
      | none =>
        rw [hl] at h
        exact absurd h (by simp)
      | some r2 =>
        rw [hl] at h
        obtain ⟨s2, tr⟩ := r2
        dsimp only at h
        rw [Option.some_inj] at h
        subst h
        exact frame_fields_trans (setClip_frame _ _ _)
          (frame_fields_trans (ihL _ _ (s2, tr) hl) (setClip_frame _ _ _))
    have hS : ∀ name s r, stop_clip (fuel + 1) name s = some r →
        frame_fields r.1 s := by
      intro name s r h
      rw [stop_clip] at h
      split at h
      · exact absurd h (by simp)
      · exact ihCS _ _ _ _ h
    refine ⟨hD, hL, hS, hCS, ?_⟩
    intro name cs s now r h
    rw [clip_play] at h
    split at h
    · split at h
      · rw [Option.some_inj] at h
        subst h
        exact setClip_frame _ _ _
      · split at h
        · exact absurd h (by simp)
        · -- the ten step kinds
          split at h
          · -- MappingOn
            try dsimp only at h
            split at h
            · exact absurd h (by simp)
            · rename_i s1 tr1 heq1
              try dsimp only at h
              split at h
              · exact absurd h (by simp)
              · rename_i s2 tr2 at2 heq2
                rw [Option.some_inj] at h
                subst h
                exact frame_fields_trans
                  (frame_fields_trans (ihP _ _ _ _ (s2, tr2, at2) heq2)
                    (activate_frame _ _ _ _ (s1, tr1) heq1))
                  (setClip_frame _ _ _)
          · -- MappingOff
            split at h
            · exact absurd h (by simp)
            · -- target is a MappingOn
              split at h
              · exact absurd h (by simp)
              · rename_i s1 tr1 heq1
                try dsimp only at h
                split at h
                · exact absurd h (by simp)
                · rename_i s2 tr2 at2 heq2
                  rw [Option.some_inj] at h
                  subst h
                  exact frame_fields_trans
                    (frame_fields_trans (ihP _ _ _ _ (s2, tr2, at2) heq2)
                      (ihD _ _ (s1, tr1) heq1))
                    (setClip_frame _ _ _)
            · -- target is not a MappingOn
              exact ihP _ _ _ _ _ h
          · -- End
            exact ihP _ _ _ _ _ h
          · -- Loop
            exact ihP _ _ _ _ _ h
          · -- SetColor
            exact ihP _ _ _ _ _ h
          · -- SetTempo
            exact ihP _ _ _ _ _ h
          · -- Stop
            split at h
            · exact absurd h (by simp)
            · rename_i s1 tr1 heq1
              split at h
              · exact absurd h (by simp)
              · rename_i s2 tr2 at2 heq2
                rw [Option.some_inj] at h
                subst h
                exact frame_fields_trans (ihP _ _ _ _ (s2, tr2, at2) heq2)
                  (frame_fields_trans (ihCS _ _ _ (s1, tr1) heq1)
                    (setClip_frame _ _ _))
          · -- StopOther
            split at h
            · exact absurd h (by simp)
            · rename_i s1 tr1 heq1
              split at h
              · exact absurd h (by simp)
              · rename_i s2 tr2 at2 heq2
                rw [Option.some_inj] at h
                subst h
                exact frame_fields_trans (ihP _ _ _ _ (s2, tr2, at2) heq2)
                  (frame_fields_trans (ihS _ _ (s1, tr1) heq1)
                    (setClip_frame _ _ _))
          · -- WaitBeats
            exact ihP _ _ _ _ _ h
          · -- WaitMillis
            exact ihP _ _ _ _ _ h
    · rw [Option.some_inj] at h
      subst h
      exact setClip_frame _ _ _

lemma play_clips_list_frame (fuel : Nat) :
    ∀ names s now acc r, play_clips_list fuel names s now acc = some r →
      frame_fields r.1 s := by
  intro names
  induction names with
  | nil =>
    intro s now acc r h
    rw [play_clips_list] at h
    rw [Option.some_inj] at h
    subst h
    exact frame_fields_refl s
  | cons name rest ih =>
    intro s now acc r h
    rw [play_clips_list] at h
    cases hlc : lookup_clip s name with
    | none =>
      rw [hlc] at h
      exact absurd h (by simp)
    | some cs =>
      rw [hlc] at h
      dsimp only at h
      cases hp : clip_play fuel name cs s now with
      | none =>
        rw [hp] at h
        exact absurd h (by simp)
      | some r1 =>
        rw [hp] at h
        obtain ⟨s1, tr1, at1⟩ := r1
        dsimp only at h
        cases hrest : play_clips_list fuel rest s1 now (minWake acc at1) with
        | none =>
          rw [hrest] at h
          exact absurd h (by simp)
        | some r2 =>
          rw [hrest] at h
          obtain ⟨s2, tr2, at2⟩ := r2
          dsimp only at h
          rw [Option.some_inj] at h
          subst h
          exact frame_fields_trans
            (ih s1 now (minWake acc at1) (s2, tr2, at2) hrest)
            ((runtime_frame fuel).2.2.2.2 name cs s now (s1, tr1, at1) hp)

lemma play_clips_frame (fuel : Nat) (s : MutableShowState) (now : Nat)
    (r : MutableShowState × List Packet × Option Nat)
    (h : play_clips fuel s now = some r) : frame_fields r.1 s :=
  play_clips_list_frame fuel _ s now none r h

/-- C5: `tick` never sends the lights-out off broadcast while any
receiver is owned, or while any clip is playing, or before the idle
time reaches the window-open bound, or once it reaches the window-close
bound, or when less than one period has elapsed since the previous
lights-out packet; when it does send, `last_lights_out` is stamped with
`now`, so a subsequent tick can only send again once a full period has
passed.  (`s1` is the state after `tick` has advanced the clips; the
lights-out decision is taken on that state.) -/
theorem tick_lights_out_policy (fuel : Nat) (config : ConfigFile)
    (s s1 : MutableShowState) (now : Nat) (tr1 : List Packet)
    (pa : Option Nat)
    (hplay : play_clips fuel s now = some (s1, tr1, pa)) :
    ((∃ rs ∈ s1.receiver_state, rs.trigger_mapping ≠ 0) ∨
        clips_is_playing s1 = true ∨
        now - s1.last_effect < config.lights_out_window_open ∨
        config.lights_out_window_close ≤ now - s1.last_effect ∨
        now - s1.last_lights_out < config.lights_out_period →
      tick fuel config s now = some (s1, tr1,
        min config.lights_out_delay
          (pa.elim config.lights_out_delay (fun t => t - now)))) ∧
    ((∀ rs ∈ s1.receiver_state, rs.trigger_mapping = 0) →
      clips_is_playing s1 = false →
      config.lights_out_window_open ≤ now - s1.last_effect →
      now - s1.last_effect < config.lights_out_window_close →
      config.lights_out_period ≤ now - s1.last_lights_out →
      tick fuel config s now = some ({ s1 with last_lights_out := now },
        tr1 ++ [GLOBAL_OFF_PACKET],
        min config.lights_out_delay
          (pa.elim config.lights_out_delay (fun t => t - now)))) ∧
    (∀ fuel2 now2 s2 tr2 pa2 s3 tr3 w3,
      play_clips fuel2 { s1 with last_lights_out := now } now2 =
        some (s2, tr2, pa2) →
      tick fuel2 config { s1 with last_lights_out := now } now2 =
        some (s3, tr3, w3) →
      tr3 ≠ tr2 →
      config.lights_out_period ≤ now2 - now) := by
  have hbridge : ∀ (sx : MutableShowState) (nx : Nat),
      (¬ (sx.receiver_state.any fun rs => rs.is_active) = true ∧
        ¬ clips_is_playing sx = true ∧
        config.lights_out_window.contains (nx - sx.last_effect) = true ∧
        config.lights_out_delay ≤ nx - sx.last_lights_out) ↔
      ((∀ rs ∈ sx.receiver_state, rs.trigger_mapping = 0) ∧
        clips_is_playing sx = false ∧
        (config.lights_out_window_open ≤ nx - sx.last_effect ∧
          nx - sx.last_effect < config.lights_out_window_close) ∧
        config.lights_out_period ≤ nx - sx.last_lights_out) := by
    intro sx nx
    simp [List.any_eq_true, ReceiverState.is_active, ReceiverState.INACTIVE,
      RangeN.contains, ConfigFile.lights_out_window,
      ConfigFile.lights_out_delay, Bool.not_eq_true, bne_iff_ne]
  refine ⟨?_, ?_, ?_⟩
  · intro hdisj
    have hg : ¬ (¬ (s1.receiver_state.any fun rs => rs.is_active) = true ∧
        ¬ clips_is_playing s1 = true ∧
        config.lights_out_window.contains (now - s1.last_effect) = true ∧
        config.lights_out_delay ≤ now - s1.last_lights_out) := by
      rw [hbridge]
      rintro ⟨h1, h2, ⟨h3, h4⟩, h5⟩
      rcases hdisj with ⟨rs, hrs, hne⟩ | hp | hlt | hge | hlt2
      · exact hne (h1 rs hrs)
      · rw [h2] at hp
        exact Bool.false_ne_true hp
      · omega
      · omega
      · have : config.lights_out_delay = config.lights_out_period := rfl
        omega
    unfold tick
    rw [hplay]
    dsimp only
    rw [if_neg hg]
  · intro h1 h2 h3 h4 h5
    have hg : (¬ (s1.receiver_state.any fun rs => rs.is_active) = true ∧
        ¬ clips_is_playing s1 = true ∧
        config.lights_out_window.contains (now - s1.last_effect) = true ∧
        config.lights_out_delay ≤ now - s1.last_lights_out) := by
      rw [hbridge]
      exact ⟨h1, h2, ⟨h3, h4⟩, h5⟩
    unfold tick
    rw [hplay]
    dsimp only
    rw [if_pos hg]
  · intro fuel2 now2 s2 tr2 pa2 s3 tr3 w3 hplay2 htick2 htr
    have hllo : s2.last_lights_out = now :=
      (play_clips_frame fuel2 _ now2 (s2, tr2, pa2) hplay2).2.2
    unfold tick at htick2
    rw [hplay2] at htick2
    dsimp only at htick2
    by_cases hg2 : (¬ (s2.receiver_state.any fun rs => rs.is_active) = true ∧
        ¬ clips_is_playing s2 = true ∧
        config.lights_out_window.contains (now2 - s2.last_effect) = true ∧
        config.lights_out_delay ≤ now2 - s2.last_lights_out)
    · have hper := hg2.2.2.2
      rw [hllo] at hper
      have : config.lights_out_delay = config.lights_out_period := rfl
      omega
    · rw [if_neg hg2] at htick2
      rw [Option.some_inj] at htick2
      exact absurd (congrArg (fun t => t.2.1) htick2).symm htr

/-- C1 witness fixture: mapping 5 targets group 10 whose expansion is
receivers 80 and 81; receiver 81 has since been captured by mapping 9. -/
def c1Mapping : LightMapping :=
  { id := 5, cue := "m1", light := .Effect .Pop, override_clip_color := none,
    attack := none, sustain := none, release := none, one_shot := none,
    tempo := none }

def c1Meta : LightMappingMeta :=
  { color := ⟨0, 0, 0⟩, source := c1Mapping, targets := [10],
    receivers := [80, 81] }

def c1State : MutableShowState :=
  { last_effect := 0, last_lights_out := 0, light_mappings := [(5, c1Meta)],
    receiver_state := [⟨80, 5⟩, ⟨81, 9⟩], sustain := false,
    pending_off := [], clips := [] }

theorem deactivate_effect_ownership_witness :
    (deactivate_effect c1Meta c1State).2 =
      [{ recipients := [80], payload := .Show ShowPacket.OFF_PACKET }] ∧
    (deactivate_effect c1Meta c1State).1.receiver_state[0]? =
      some ⟨80, 0⟩ ∧
    (deactivate_effect c1Meta c1State).1.receiver_state[1]? =
      some ⟨81, 9⟩ := by
  have H := deactivate_effect_ownership c1Meta c1State (by decide)
  refine ⟨?_, ?_, ?_⟩
  · have h := H.2.2.1 (by decide) (by decide)
    rw [h]
    rfl
  · have h := H.1 0 ⟨80, 5⟩ rfl
    simpa using h
  · have h := H.2.2.2.2 1 ⟨81, 9⟩ rfl (by decide)
    simpa using h

/-- C5 witness fixture: one idle receiver, no clips. -/
def idleState : MutableShowState :=
  { last_effect := 0, last_lights_out := 0, light_mappings := [],
    receiver_state := [⟨80, 0⟩], sustain := false, pending_off := [],
    clips := [] }

theorem tick_lights_out_policy_witness :
    tick 1 ⟨0, 2, 60, 3⟩ idleState 5 =
      some ({ idleState with last_lights_out := 5 },
        [GLOBAL_OFF_PACKET], 3) ∧
    tick 1 ⟨0, 2, 60, 3⟩ idleState 1 = some (idleState, [], 3) := by
  constructor
  · have H := tick_lights_out_policy 1 ⟨0, 2, 60, 3⟩ idleState idleState 5
      [] none rfl
    have h := H.2.1 (by decide) rfl (by decide) (by decide) (by decide)
    simpa using h
  · have H := tick_lights_out_policy 1 ⟨0, 2, 60, 3⟩ idleState idleState 1
      [] none rfl
    have h := H.1 (Or.inr (Or.inr (Or.inl (by decide))))
    simpa using h

/-- C6: sustain buffering.  While sustain is held, every
live-MIDI-originated deactivation is appended to `pending_off` with no
packet and no other state change; a sustain release (cc 64 value 0)
clears the flag, deactivates the buffered ids front-to-back (FIFO) and
empties the buffer; cc 64 value 127 raises the flag; and the plain
`deactivate` path that clip steps use ignores the buffer entirely (it
never touches `pending_off` or `sustain`, and the effect off path
behaves identically whatever the sustain flag holds). -/
theorem sustain_buffering :
    (∀ (fuel mid : Nat) (s : MutableShowState), s.sustain = true →
      deactivate_from_midi fuel mid s =
        some ({ s with pending_off := s.pending_off ++ [mid] }, [])) ∧
    (∀ (fuel mid : Nat) (s : MutableShowState), s.sustain = false →
      deactivate_from_midi fuel mid s = deactivate fuel mid s) ∧
    (∀ (fuel : Nat) (config : ConfigFile) (channel : Nat)
       (s : MutableShowState) (now : Nat),
      channel = config.midi_control_channel →
      process_special_controllers fuel config channel SUSTAIN_CONTROLLER 127
          s now = some ({ s with sustain := true }, [], true)) ∧
    (∀ (fuel : Nat) (config : ConfigFile) (channel : Nat)
       (s : MutableShowState) (now : Nat),
      channel = config.midi_control_channel →
      process_special_controllers fuel config channel SUSTAIN_CONTROLLER 0
          s now =
        (deactivate_list fuel s.pending_off { s with sustain := false }).map
          (fun r => ({ r.1 with pending_off := [] }, r.2, true))) ∧
    (∀ (fuel mid : Nat) (rest : List Nat) (s : MutableShowState),
      deactivate_list (fuel + 1) (mid :: rest) s =
        (deactivate fuel mid s).bind (fun r1 =>
          (deactivate_list fuel rest r1.1).map
            (fun r2 => (r2.1, r1.2 ++ r2.2)))) ∧
    (∀ (fuel mid : Nat) (s : MutableShowState)
       (r : MutableShowState × List Packet),
      deactivate fuel mid s = some r →
      r.1.pending_off = s.pending_off ∧ r.1.sustain = s.sustain) ∧
    (∀ (meta : LightMappingMeta) (s : MutableShowState) (b : Bool),
      deactivate_effect meta { s with sustain := b } =
        ({ (deactivate_effect meta s).1 with sustain := b },
         (deactivate_effect meta s).2)) := by
  refine ⟨?_, ?_, ?_, ?_, ?_, ?_, ?_⟩
  · intro fuel mid s hs
    unfold deactivate_from_midi
    rw [if_pos hs]
  · intro fuel mid s hs
    unfold deactivate_from_midi
    rw [if_neg (by rw [hs]; exact Bool.false_ne_true)]
  · intro fuel config channel s now hch
    rw [process_special_controllers, if_pos hch, if_pos rfl, if_pos rfl]
  · intro fuel config channel s now hch
    rw [process_special_controllers, if_pos hch, if_pos rfl]
    rw [if_neg (by decide)]
    rw [if_pos rfl]
    dsimp only
    cases h : deactivate_list fuel s.pending_off
        { s with sustain := false } with
    | none => rfl
    | some r => rfl
  · intro fuel mid rest s
    rw [deactivate_list]
    cases hd : deactivate fuel mid s with
    | none => rfl
    | some r1 =>
      obtain ⟨s1, tr1⟩ := r1
      dsimp only [Option.bind]
      cases hl : deactivate_list fuel rest s1 with
      | none => rfl
      | some r2 =>
        obtain ⟨s2, tr2⟩ := r2
        rfl
  · intro fuel mid s r h
    have hf := (runtime_frame fuel).1 mid s r h
    exact ⟨hf.2.1, hf.1⟩
  · intro meta s b
    unfold deactivate_effect
    dsimp only
    split <;>
      first
        | rfl
        | (split <;> rfl)

/-- C6 witness fixture: mapping 3 (non-one-shot effect on receiver 80,
currently owned by it) is already buffered; sustain is held. -/
def susMapping : LightMapping :=
  { id := 3, cue := "sus", light := .Effect .Pop,
    override_clip_color := none, attack := none, sustain := none,
    release := none, one_shot := none, tempo := none }

def susMeta : LightMappingMeta :=
  { color := ⟨0, 0, 0⟩, source := susMapping, targets := [80],
    receivers := [80] }

def susState : MutableShowState :=
  { last_effect := 0, last_lights_out := 0, light_mappings := [(3, susMeta)],
    receiver_state := [⟨80, 3⟩], sustain := true, pending_off := [3],
    clips := [] }

theorem sustain_buffering_witness :
    deactivate_from_midi 1 9 susState =
      some ({ susState with pending_off := [3, 9] }, []) ∧
    process_special_controllers 2 ⟨0, 0, 0, 0⟩ 0 SUSTAIN_CONTROLLER 0
        susState 0 =
      some ({ susState with
                sustain := false,
                pending_off := [],
                receiver_state := [⟨80, 0⟩] },
        [{ recipients := [80], payload := .Show ShowPacket.OFF_PACKET }],
        true) := by
  constructor
  · have h := sustain_buffering.1 1 9 susState rfl
    simpa using h
  · have h := sustain_buffering.2.2.2.1 2 ⟨0, 0, 0, 0⟩ 0 susState 0 rfl
    rw [h]
    rfl

/-- C4: the destination byte and trailing target bytes follow the
broadcast predicate: a single recipient outside the group id range
10..80 becomes the destination byte with no target bytes appended
after the payload; every other recipient list (empty, several entries,
or a single group id) marshals with destination `0xFF` and the
recipient list appended verbatim after the payload. -/
theorem packet_marshal_broadcast_predicate (p : Packet)
    (from_id packet_id flags : Nat) :
    (∀ r, p.recipients = [r] → ¬ (10 ≤ r ∧ r < 80) →
      p.marshal from_id packet_id flags =
        (4 + p.payload.marshal.length) % 256 :: r :: from_id :: packet_id ::
          flags :: p.payload.marshal) ∧
    ((p.recipients = [] ∨ 2 ≤ p.recipients.length ∨
        (∃ r, p.recipients = [r] ∧ 10 ≤ r ∧ r < 80)) →
      p.marshal from_id packet_id flags =
        (4 + p.payload.marshal.length + p.recipients.length) % 256 :: 0xFF ::
          from_id :: packet_id :: flags ::
          (p.payload.marshal ++ p.recipients)) := by
  constructor
  · intro r hrec hng
    have hbc : p.is_broadcast = false := by
      simp [Packet.is_broadcast, hrec, GROUP_ID_RANGE, RangeN.contains]
      omega
    simp only [Packet.marshal, hbc, if_false, Bool.false_eq_true,
      List.append_nil, hrec, List.headD_cons, List.cons_append,
      List.nil_append, List.set_cons_zero, List.length_cons,
      List.length_append]
    congr 1
    omega
  · intro hcase
    have hbc : p.is_broadcast = true := by
      rcases hcase with h0 | h2 | ⟨r, hr, hlo, hhi⟩
      · simp [Packet.is_broadcast, h0]
      · simp [Packet.is_broadcast]
        omega
      · simp [Packet.is_broadcast, hr, GROUP_ID_RANGE, RangeN.contains]
        omega
    simp only [Packet.marshal, hbc, if_true, List.cons_append,
      List.nil_append, List.set_cons_zero, List.length_cons,
      List.length_append]
    congr 1
    omega

theorem packet_marshal_broadcast_predicate_witness :
    (Packet.marshal ⟨[80], .Show ShowPacket.OFF_PACKET⟩ 1 2 0 =
      (4 + (PacketPayload.Show ShowPacket.OFF_PACKET).marshal.length) % 256 ::
        80 :: 1 :: 2 :: 0 ::
        (PacketPayload.Show ShowPacket.OFF_PACKET).marshal) ∧
    (Packet.marshal ⟨[10], .Show ShowPacket.OFF_PACKET⟩ 1 2 0 =
      (4 + (PacketPayload.Show ShowPacket.OFF_PACKET).marshal.length + 1) %
          256 :: 0xFF :: 1 :: 2 :: 0 ::
        ((PacketPayload.Show ShowPacket.OFF_PACKET).marshal ++ [10])) :=
  ⟨(packet_marshal_broadcast_predicate ⟨[80], .Show ShowPacket.OFF_PACKET⟩
      1 2 0).1 80 rfl (by decide),
   (packet_marshal_broadcast_predicate ⟨[10], .Show ShowPacket.OFF_PACKET⟩
      1 2 0).2 (Or.inr (Or.inr ⟨10, rfl, by decide, by decide⟩))⟩

end ChsXmit
